import Mathlib

/-
Verification of the Greenfitness repository's specification against its code.

The Python modules `fitness_center_data.py`, `openmapapi.py` and
`streamlit_app.py` are shallowly embedded below: pandas DataFrames become
lists of `Row`s, missing values (`None` / NaN) become `Option.none`, Python
floats become rationals, Python strings become lists of characters, and the
Streamlit session state becomes an explicit record threaded through the
search handler.
-/

namespace GreenFitness

/-- Python strings, modelled as lists of characters. -/
abbrev PyStr := List Char

/-- Whitespace test used by Python str.strip (space, tab, newline,
carriage return, vertical tab, form feed). -/
def isPySpace (c : Char) : Bool :=
  c == ' ' || c == '\t' || c == '\n' || c == '\r' ||
    c == Char.ofNat 11 || c == Char.ofNat 12

/-- ASCII lower casing of a single character, as Python str.lower acts on
the ASCII catalog values. -/
def charLower (c : Char) : Char :=
  match c with
  | 'A' => 'a' | 'B' => 'b' | 'C' => 'c' | 'D' => 'd' | 'E' => 'e'
  | 'F' => 'f' | 'G' => 'g' | 'H' => 'h' | 'I' => 'i' | 'J' => 'j'
  | 'K' => 'k' | 'L' => 'l' | 'M' => 'm' | 'N' => 'n' | 'O' => 'o'
  | 'P' => 'p' | 'Q' => 'q' | 'R' => 'r' | 'S' => 's' | 'T' => 't'
  | 'U' => 'u' | 'V' => 'v' | 'W' => 'w' | 'X' => 'x' | 'Y' => 'y'
  | 'Z' => 'z'
  | other => other

/-- Python str.lower on a whole string. -/
def pyLower (s : PyStr) : PyStr := s.map charLower

/-- Removal of trailing Python whitespace (the right half of str.strip). -/
def pyStripRight : PyStr → PyStr
  | [] => []
  | c :: cs =>
    let r := pyStripRight cs
    if r = [] ∧ isPySpace c then [] else c :: r

/-- Python str.strip: drop leading and trailing whitespace. -/
def pyStrip (s : PyStr) : PyStr := pyStripRight (s.dropWhile isPySpace)

/-- The lowercase ASCII letters. -/
def lowerChars : List Char := ("abcdefghijklmnopqrstuvwxyz").toList

theorem charLower_split (c : Char) : charLower c = c ∨ charLower c ∈ lowerChars := by
  unfold charLower
  split
  all_goals first
    | exact Or.inl rfl
    | exact Or.inr (by decide)

theorem charLower_lower (d : Char) (hd : d ∈ lowerChars) : charLower d = d := by
  fin_cases hd <;> rfl

theorem charLower_idem (c : Char) : charLower (charLower c) = charLower c := by
  rcases charLower_split c with h | h
  · rw [h, h]
  · exact charLower_lower _ h

theorem isPySpace_charLower (c : Char) : isPySpace (charLower c) = isPySpace c := by
  unfold charLower
  split <;> rfl

theorem pyLower_idem (s : PyStr) : pyLower (pyLower s) = pyLower s := by
  simp [pyLower, List.map_map, Function.comp, charLower_idem]

theorem dropWhile_map_comm (p : Char → Bool) (f : Char → Char)
    (hpf : ∀ c, p (f c) = p c) (l : PyStr) :
    (l.map f).dropWhile p = (l.dropWhile p).map f := by
  induction l with
  | nil => rfl
  | cons c cs ih =>
    simp only [List.map_cons, List.dropWhile_cons, hpf c]
    by_cases h : p c = true
    · simp [h, ih]
    · simp [h]

theorem dropWhile_self (p : Char → Bool) (l : PyStr) :
    (l.dropWhile p).dropWhile p = l.dropWhile p := by
  induction l with
  | nil => rfl
  | cons c cs ih =>
    by_cases h : p c = true
    · simp [List.dropWhile_cons, h, ih]
    · simp [List.dropWhile_cons, h]

theorem pyStripRight_map (f : Char → Char) (hpf : ∀ c, isPySpace (f c) = isPySpace c) :
    ∀ l : PyStr, pyStripRight (l.map f) = (pyStripRight l).map f := by
  intro l
  induction l with
  | nil => rfl
  | cons c cs ih =>
    simp only [List.map_cons, pyStripRight, ih, hpf c]
    by_cases h : pyStripRight cs = []
    · by_cases hc : isPySpace c = true <;> simp [h, hc]
    · simp [h, List.map_eq_nil_iff]

theorem pyStripRight_idem : ∀ l : PyStr, pyStripRight (pyStripRight l) = pyStripRight l := by
  intro l
  induction l with
  | nil => rfl
  | cons c cs ih =>
    by_cases h : pyStripRight cs = [] ∧ isPySpace c
    · simp [pyStripRight, h]
    · simp only [pyStripRight, if_neg h]
      simp only [pyStripRight, ih, if_neg h]

theorem dropWhile_length_le (p : Char → Bool) (l : PyStr) :
    (l.dropWhile p).length ≤ l.length := by
  induction l with
  | nil => simp
  | cons c cs ih =>
    rw [List.dropWhile_cons]
    by_cases h : p c = true
    · simp only [if_pos h]
      exact Nat.le_trans ih (Nat.le_succ _)
    · simp [h]

theorem dropWhile_stripRight (t : PyStr) (h : t.dropWhile isPySpace = t) :
    (pyStripRight t).dropWhile isPySpace = pyStripRight t := by
  cases t with
  | nil => rfl
  | cons c cs =>
    have hc : isPySpace c = false := by
      by_contra hcontra
      have hc : isPySpace c = true := by
        cases hval : isPySpace c
        · exact absurd hval hcontra
        · rfl
      rw [List.dropWhile_cons, if_pos hc] at h
      have hlen := congrArg List.length h
      have hle := dropWhile_length_le isPySpace cs
      simp at hlen
      omega
    simp only [pyStripRight]
    by_cases hr : pyStripRight cs = [] ∧ isPySpace c
    · simp [hr]
    · simp [if_neg hr, List.dropWhile_cons, hc]

theorem pyStrip_idem (s : PyStr) : pyStrip (pyStrip s) = pyStrip s := by
  have h1 : (pyStrip s).dropWhile isPySpace = pyStrip s := by
    apply dropWhile_stripRight
    exact dropWhile_self isPySpace s
  simp only [pyStrip] at h1 ⊢
  rw [h1]
  exact pyStripRight_idem _

theorem pyStrip_pyLower (s : PyStr) : pyStrip (pyLower s) = pyLower (pyStrip s) := by
  simp only [pyStrip, pyLower]
  rw [dropWhile_map_comm isPySpace charLower isPySpace_charLower,
    pyStripRight_map charLower isPySpace_charLower]

/-- The canonical form of a name up to letter case and surrounding
whitespace: two strings differ only by case or surrounding whitespace
exactly when they have the same canonical form. -/
def normName (s : PyStr) : PyStr := pyLower (pyStrip s)

theorem normName_fixes_normalized (a : PyStr) :
    normName (pyLower (pyStrip a)) = pyLower (pyStrip a) := by
  simp only [normName, pyStrip_pyLower, pyLower_idem, pyStrip_idem]

/-- One catalog row, i.e. one line of the merged fitness-center DataFrame.
The columns used by the embedded functions are kept; a missing value (NaN)
is `Option.none`, the CSV column addr:city is `city` and addr:country is
`country`. Coordinates are rationals. -/
structure Row where
  name : Option PyStr
  city : Option PyStr
  latitude : Option ℚ
  longitude : Option ℚ
  country : Option PyStr
deriving DecidableEq

/-- pandas Series.unique: the distinct values of a column in order of first
appearance (NaN, modelled by callers as `Option.none`, is kept as a value). -/
def uniqueAux [DecidableEq α] (seen : List α) : List α → List α
  | [] => []
  | x :: xs => if x ∈ seen then uniqueAux seen xs else x :: uniqueAux (x :: seen) xs

theorem mem_uniqueAux [DecidableEq α] (l : List α) :
    ∀ (seen : List α) (x : α), x ∈ uniqueAux seen l → x ∈ l := by
  induction l with
  | nil => intro seen x h; simp [uniqueAux] at h
  | cons y ys ih =>
    intro seen x h
    rw [uniqueAux] at h
    by_cases hy : y ∈ seen
    · exact List.mem_cons_of_mem y (ih seen x (by rwa [if_pos hy] at h))
    · rw [if_neg hy, List.mem_cons] at h
      rcases h with h | h
      · exact h ▸ List.mem_cons_self y ys
      · exact List.mem_cons_of_mem y (ih (y :: seen) x h)

/-- A Python value handed to float(): None, a string, or a number. -/
inductive PyVal
  | pynone : PyVal
  | pystr : PyStr → PyVal
  | pynum : ℚ → PyVal
deriving DecidableEq

/-- Numeric value of a digit string. -/
def digitsToNat (ds : PyStr) : Nat :=
  ds.foldl (fun acc c => acc * 10 + (c.toNat - 48)) 0

/-- Parse an unsigned decimal literal: digits, an optional dot, digits,
with at least one digit present and nothing left over. -/
def parseUnsigned (s : PyStr) : Option ℚ :=
  let ip := s.takeWhile Char.isDigit
  let rest := s.dropWhile Char.isDigit
  match rest with
  | [] => if ip = [] then Option.none else some (mkRat (digitsToNat ip) 1)
  | '.' :: rest2 =>
    let fp := rest2.takeWhile Char.isDigit
    let rest3 := rest2.dropWhile Char.isDigit
    if rest3 = [] ∧ (ip ≠ [] ∨ fp ≠ []) then
      some (mkRat (digitsToNat ip * 10 ^ fp.length + digitsToNat fp) (10 ^ fp.length))
    else Option.none
  | _ => Option.none

/-- Python float() applied to a string: surrounding whitespace is allowed,
then an optional sign and a decimal literal. (The exotic accepted forms,
exponents, inf and nan, play no role in the claims and are left out.) -/
def pyFloatOfStr (s0 : PyStr) : Option ℚ :=
  match pyStrip s0 with
  | '+' :: rest => parseUnsigned rest
  | '-' :: rest => (parseUnsigned rest).map (fun q => -q)
  | s => parseUnsigned s

/-- Python float(value): a TypeError on None, a parse of a string
(ValueError when it fails), the identity on a number. The exceptional
outcomes are `Option.none`. -/
def pyFloat : PyVal → Option ℚ
  | PyVal.pynone => Option.none
  | PyVal.pynum q => some q
  | PyVal.pystr s => pyFloatOfStr s

/-- fitness_center_data.is_valid_coordinate: try float(value) and test the
result against zero; any ValueError or TypeError yields False. -/
def is_valid_coordinate (value : PyVal) : Bool :=
  match pyFloat value with
  | some num => num != 0
  | Option.none => false

/-- Distance kernel of the external library call geodesic(a, b).km used by
compute_distance. The library function is not part of this repository; it
is modelled as the squared Euclidean displacement of the coordinate pairs.
Every property proved below uses only that the kernel is symmetric and
zero on identical points, which the library's geodesic distance satisfies. -/
def geodesic_km (p q : ℚ × ℚ) : ℚ :=
  (p.1 - q.1) * (p.1 - q.1) + (p.2 - q.2) * (p.2 - q.2)

/-- fitness_center_data.compute_distance: None when either tuple has an
absent component, otherwise the geodesic kilometre distance. -/
def compute_distance (user_coords fitness_coords : Option ℚ × Option ℚ) : Option ℚ :=
  match user_coords, fitness_coords with
  | (some ulat, some ulon), (some flat, some flon) =>
    some (geodesic_km (ulat, ulon) (flat, flon))
  | _, _ => Option.none

/-- fitness_center_data.get_all_fitness_centers. Each configured source
file of the global `fitness_centers` list is modelled by the list of rows
its CSV parses to. With at least one source the frames are concatenated
and the name column is normalized by str.strip().str.lower(); with no
source the function returns None (the Python `else: return None` branch). -/
def get_all_fitness_centers (fitness_centers : List (List Row)) : Option (List Row) :=
  let all_data := fitness_centers
  if all_data ≠ [] then
    some ((all_data.flatten).map (fun r =>
      { r with name := r.name.map (fun n => pyLower (pyStrip n)) }))
  else
    Option.none

/-- fitness_center_data.get_unique_towns: the addr:city column lowercased
by Series.str.lower (which keeps NaN) and deduplicated by Series.unique.
Nothing is stripped or dropped. -/
def get_unique_towns (all_fitness_centers : List Row) : List (Option PyStr) :=
  uniqueAux [] (all_fitness_centers.map (fun r => r.city.map pyLower))

/-- fitness_center_data.get_studio_names_from_centers: on a non-empty
frame, the name column with NaN dropped, stripped, lowercased and
deduplicated, then with falsy (empty) strings removed. -/
def get_studio_names_from_centers (fitness_centers_df : List Row) : List PyStr :=
  if fitness_centers_df = [] then []
  else
    let studio_names :=
      uniqueAux [] (((fitness_centers_df.filterMap Row.name).map pyStrip).map pyLower)
    studio_names.filter (fun name => name ≠ [])

/-- Ascending comparison of result rows by their distance_km column. -/
def distLE (p q : Row × ℚ) : Prop := p.2 ≤ q.2

instance : DecidableRel distLE := fun p q => inferInstanceAs (Decidable (p.2 ≤ q.2))

instance : IsTotal (Row × ℚ) distLE := ⟨fun a b => le_total a.2 b.2⟩

instance : IsTrans (Row × ℚ) distLE := ⟨fun _ _ _ hab hbc => le_trans hab hbc⟩

/-- fitness_center_data.get_fitness_centers_by_coordinates. The query
coordinate arrives as an optional tuple (a list, so that the wrong-arity
guard `not coords or len(coords) != 2` can be exercised); `all_centers` is
the table that the call to get_all_fitness_centers() returns. A result row
is paired with its distance_km value, and the final
sort_values("distance_km") sorts ascending by distance (the tie order of
numpy's default quicksort is not specified; an insertion sort stands in
for it here). -/
def get_fitness_centers_by_coordinates (all_centers : List Row)
    (coords : Option (List ℚ)) (country_code : PyStr) (max_distance_km : ℚ) :
    List (Row × ℚ) :=
  match coords with
  | Option.none => []
  | some [lat, lon] =>
    if all_centers = [] then []
    else
      let country_centers := all_centers.filter (fun c => c.country = some country_code)
      if country_centers = [] then []
      else
        let valid_centers := country_centers.filterMap (fun center =>
          match center.latitude, center.longitude with
          | some la, some lo =>
            if la ≠ 0 ∧ lo ≠ 0 then
              match compute_distance (some lat, some lon) (some la, some lo) with
              | some distance =>
                if distance ≤ max_distance_km then some (center, distance)
                else Option.none
              | Option.none => Option.none
            else Option.none
          | _, _ => Option.none)
        if valid_centers = [] then []
        else List.insertionSort distLE valid_centers
  | some _ => []

/-- One raw POI of the Open Charge Map response body, i.e. the fields of
point.get("AddressInfo") and point.get("Distance") that the code reads. -/
structure ChargePoint where
  title : Option PyStr
  addressLine1 : Option PyStr
  town : Option PyStr
  countryRef : Option PyStr
  latitude : Option ℚ
  longitude : Option ℚ
  distance : Option ℚ
deriving DecidableEq

/-- The station_info dictionary built per charge point; a missing field is
defaulted (the string "Unknown" in Python, kept as `Option.none` here so
that string and numeric columns stay typed). -/
structure StationInfo where
  name : Option PyStr
  address : Option PyStr
  city : Option PyStr
  country : Option PyStr
  latitude : Option ℚ
  longitude : Option ℚ
  distance : Option ℚ
deriving DecidableEq

def station_info (point : ChargePoint) : StationInfo :=
  { name := point.title
    address := point.addressLine1
    city := point.town
    country := point.countryRef
    latitude := point.latitude
    longitude := point.longitude
    distance := point.distance }

/-- An HTTP response of requests.get on the POI endpoint: the status code
and the decoded JSON body. -/
structure HttpResponse where
  status_code : Nat
  body : List ChargePoint

/-- The module-level guard of openmapapi.py: importing the module raises a
ValueError when the OPEN_MAP_API_KEY environment variable is absent. -/
def openmapapi_module_check (api_key : Option PyStr) : Except PyStr Unit :=
  if api_key = Option.none then
    Except.error (("API key is missing! Please check your .env file.").toList)
  else
    Except.ok ()

/-- openmapapi.get_charging_stations, as a function of the configured API
key and of the HTTP response the request produces. The successful return
value carries the station list together with a flag telling whether the
failure message was printed; a raised ValueError is `Except.error`. -/
def get_charging_stations (api_key : Option PyStr) (response : HttpResponse) :
    Except PyStr (List StationInfo × Bool) :=
  if api_key = Option.none then
    Except.error (("The API key is not available.").toList)
  else if response.status_code = 200 then
    Except.ok (response.body.map station_info, false)
  else
    Except.ok ([], true)

/-- A town boundary GeoJSON feature, kept abstract. -/
structure GeoFeature where
  tag : PyStr
deriving DecidableEq

/-- The Streamlit session state fields touched by handle_address_search.
The last_search_params dict becomes an optional (address, country_code)
pair, dicts become association lists, and the initial full-catalog value
of fitness_centers is, like a search result, a list of rows paired with a
distance. -/
structure SessionState where
  last_search_params : Option (PyStr × PyStr)
  search_history : List PyStr
  location : Option PyStr
  map_center : ℚ × ℚ
  zoom_start : Nat
  town_boundary : Option GeoFeature
  fitness_centers : List (Row × ℚ)
  studios_name : List PyStr
  studio_filters : List (PyStr × Bool)
  search_results_info : Option (Nat × ℚ × ℚ)
  selected_fitness : Option Row
  charging_stations : List StationInfo
  selected_studios : List PyStr
deriving DecidableEq

/-- The per-studio default of the filter loop: every newly found studio
name that has no entry in studio_filters yet is checked (True). -/
def add_default_filters (filters : List (PyStr × Bool)) (studios : List PyStr) :
    List (PyStr × Bool) :=
  studios.foldl
    (fun fs studio => if studio ∈ fs.map Prod.fst then fs else fs ++ [(studio, true)])
    filters

/-- pandas Series.max on the distance column (evaluated on a non-empty
result only). -/
def seriesMax : List ℚ → ℚ
  | [] => 0
  | x :: xs => xs.foldl max x

/-- pandas Series.min on the distance column (evaluated on a non-empty
result only). -/
def seriesMin : List ℚ → ℚ
  | [] => 0
  | x :: xs => xs.foldl min x

/-- The error text of the failed-geocoding branch (st.error). -/
def addressNotFoundMsg : PyStr := ("Konnte die Adresse nicht finden.").toList

/-- streamlit_app.handle_address_search. The external collaborators are
parameters: geocode_location (the Nominatim geocoder), extract_city and
town_boundary lookups, and the catalog table the inner
get_fitness_centers_by_coordinates call reads. The result pairs the new
session state with the st.error message, if one was shown. -/
def handle_address_search
    (geocode_location : PyStr → Option (ℚ × ℚ))
    (extract_city_from_address : PyStr → Option PyStr)
    (get_town_boundary : PyStr → PyStr → Option GeoFeature)
    (catalog : List Row)
    (address country_code : PyStr)
    (st : SessionState) : SessionState × Option PyStr :=
  let search_params := (address, country_code)
  if st.last_search_params = some search_params then
    (st, Option.none)
  else
    let history :=
      if address ∈ st.search_history then st.search_history
      else
        let h := st.search_history ++ [address]
        if h.length > 10 then h.drop 1 else h
    let st1 := { st with search_history := history, location := some address }
    match geocode_location address with
    | Option.none => (st1, some addressNotFoundMsg)
    | some coords =>
      let st2 := { st1 with
        map_center := coords
        zoom_start := 12
        town_boundary :=
          match extract_city_from_address address with
          | some city => get_town_boundary city country_code
          | Option.none => Option.none }
      let nearby :=
        get_fitness_centers_by_coordinates catalog (some [coords.1, coords.2])
          country_code 50
      let st3 :=
        if nearby ≠ [] then
          let names := get_studio_names_from_centers (nearby.map Prod.fst)
          { st2 with
            fitness_centers := nearby
            studios_name := names
            studio_filters := add_default_filters st2.studio_filters names
            search_results_info :=
              some (nearby.length, seriesMax (nearby.map Prod.snd),
                seriesMin (nearby.map Prod.snd)) }
        else
          { st2 with
            fitness_centers := []
            studios_name := []
            search_results_info := Option.none }
      let st4 := { st3 with
        selected_fitness := Option.none
        charging_stations := []
        selected_studios := []
        last_search_params := some search_params }
      (st4, Option.none)

/-- C5: is_valid_coordinate is true exactly when float() parses the value
and the parsed number is non-zero; in particular it is false on None, on
0, on "0" and on a non-numeric string, and true on non-zero numbers and
numeric strings, negative ones included. -/
theorem is_valid_coordinate_iff_parses_nonzero :
    (∀ v : PyVal, is_valid_coordinate v = true ↔ ∃ q : ℚ, pyFloat v = some q ∧ q ≠ 0) ∧
    is_valid_coordinate PyVal.pynone = false ∧
    is_valid_coordinate (PyVal.pynum 0) = false ∧
    is_valid_coordinate (PyVal.pystr (("0").toList)) = false ∧
    is_valid_coordinate (PyVal.pystr (("abc").toList)) = false ∧
    is_valid_coordinate (PyVal.pystr (("-3.5").toList)) = true ∧
    is_valid_coordinate (PyVal.pynum (-2)) = true := by
  refine ⟨?_, by decide, by decide, by decide, by decide, by decide, by decide⟩
  intro v
  unfold is_valid_coordinate
  cases h : pyFloat v with
  | none => simp [h]
  | some q => simp [h, bne_iff_ne]

/-- C8: compute_distance returns None whenever either coordinate tuple has
an absent component; in particular the result is not the distance zero. -/
theorem compute_distance_absent_none (user_coords fitness_coords : Option ℚ × Option ℚ)
    (h : user_coords.1 = Option.none ∨ user_coords.2 = Option.none ∨
      fitness_coords.1 = Option.none ∨ fitness_coords.2 = Option.none) :
    compute_distance user_coords fitness_coords = Option.none ∧
    compute_distance user_coords fitness_coords ≠ some 0 := by
  obtain ⟨u1, u2⟩ := user_coords
  obtain ⟨f1, f2⟩ := fitness_coords
  cases u1 <;> cases u2 <;> cases f1 <;> cases f2 <;>
    simp [compute_distance] at h ⊢

theorem compute_distance_absent_none_witness :
    compute_distance (Option.none, some 7) (some 1, some 2) = Option.none ∧
    compute_distance (Option.none, some 7) (some 1, some 2) ≠ some 0 :=
  compute_distance_absent_none (Option.none, some 7) (some 1, some 2) (Or.inl rfl)

/-- C9: on present coordinates, compute_distance of a point with itself is
the distance zero, and compute_distance is symmetric in its arguments. -/
theorem compute_distance_refl_symm (a b : ℚ × ℚ) :
    compute_distance (some a.1, some a.2) (some a.1, some a.2) = some 0 ∧
    compute_distance (some a.1, some a.2) (some b.1, some b.2) =
      compute_distance (some b.1, some b.2) (some a.1, some a.2) := by
  constructor
  · simp [compute_distance, geodesic_km]
  · simp only [compute_distance, geodesic_km, Option.some.injEq]
    ring

/-- C4 counterexample: with the list of catalog source files empty,
get_all_fitness_centers does not return the empty table; it returns the
absent value None. -/
theorem no_sources_not_empty_table :
    get_all_fitness_centers [] ≠ some [] ∧ get_all_fitness_centers [] = Option.none := by
  decide

/-- C4 amended: with no catalog source files, get_all_fitness_centers
returns the absent value None (not an empty table and not an error);
callers therefore cannot treat the result of this branch as a displayable
table. -/
theorem no_sources_give_none (files : List (List Row)) (h : files = []) :
    get_all_fitness_centers files = Option.none := by
  subst h
  decide

theorem no_sources_give_none_witness :
    get_all_fitness_centers ([] : List (List Row)) = Option.none :=
  no_sources_give_none [] rfl

/-- C7: with a configured API key, a non-success HTTP status makes
get_charging_stations return the empty station list with the failure
reported, and no request outcome makes it raise; the raise for a missing
key is the module-level import check, a startup failure. -/
theorem charging_stations_error_handling (api_key : Option PyStr) (response : HttpResponse)
    (hk : api_key ≠ Option.none) :
    (response.status_code ≠ 200 →
      get_charging_stations api_key response = Except.ok ([], true)) ∧
    (∃ v, get_charging_stations api_key response = Except.ok v) ∧
    (∃ e, openmapapi_module_check Option.none = Except.error e) := by
  unfold get_charging_stations openmapapi_module_check
  rw [if_neg hk]
  refine ⟨fun hs => by rw [if_neg hs], ?_, ⟨_, by rw [if_pos rfl]⟩⟩
  by_cases hs : response.status_code = 200
  · exact ⟨_, by rw [if_pos hs]⟩
  · exact ⟨_, by rw [if_neg hs]⟩

theorem charging_stations_error_handling_witness :
    get_charging_stations (some (("key").toList)) ⟨404, []⟩ = Except.ok ([], true) :=
  (charging_stations_error_handling (some (("key").toList)) ⟨404, []⟩ (by decide)).1
    (by decide)

/-- C10: a query tuple that is absent or is not a pair of exactly two
components makes the search return the empty table, for every catalog,
country code and radius. -/
theorem invalid_coords_give_empty (all_centers : List Row) (country_code : PyStr)
    (max_distance_km : ℚ) (coords : Option (List ℚ))
    (h : ∀ cs, coords = some cs → cs.length ≠ 2) :
    get_fitness_centers_by_coordinates all_centers coords country_code
      max_distance_km = [] := by
  rcases coords with _ | cs
  · rfl
  · match cs with
    | [] => rfl
    | [a] => rfl
    | [a, b] => exact absurd rfl (h [a, b] rfl)
    | a :: b :: c :: rest => rfl

theorem invalid_coords_give_empty_witness :
    get_fitness_centers_by_coordinates [] (some [3]) (("DE").toList) 50 = [] :=
  invalid_coords_give_empty [] (("DE").toList) 50 (some [3])
    (fun cs hcs => by cases hcs; decide)

/-- A catalog row whose city value is absent (NaN in the CSV). -/
def rowNoCity : Row :=
  { name := some (("Gym").toList), city := Option.none,
    latitude := some 1, longitude := some 2, country := some (("DE").toList) }

/-- A catalog row whose city carries surrounding whitespace. -/
def rowSpacedCity : Row :=
  { name := some (("McFit").toList), city := some ((" berlin ").toList),
    latitude := some 1, longitude := some 2, country := some (("DE").toList) }

/-- A catalog row with a plain lowercase city. -/
def rowPlainCity : Row :=
  { name := some (("McFit").toList), city := some (("berlin").toList),
    latitude := some 1, longitude := some 2, country := some (("DE").toList) }

/-- C6 counterexample: get_unique_towns keeps the absent city value, and
keeps two entries that differ only by surrounding whitespace, so the
claimed normalization does not hold for the town extraction. -/
theorem unique_towns_keep_absent_and_whitespace :
    Option.none ∈ get_unique_towns [rowNoCity] ∧
    get_unique_towns [rowSpacedCity, rowPlainCity] =
      [some ((" berlin ").toList), some (("berlin").toList)] := by
  decide

/-- Every studio name returned by get_studio_names_from_centers is the
strip-then-lower normalization of some original name. -/
theorem studio_names_shape (df : List Row) (x : PyStr)
    (hx : x ∈ get_studio_names_from_centers df) :
    ∃ a, x = pyLower (pyStrip a) := by
  unfold get_studio_names_from_centers at hx
  by_cases hdf : df = []
  · rw [if_pos hdf] at hx
    exact absurd hx (List.not_mem_nil x)
  · rw [if_neg hdf] at hx
    have hx2 := List.mem_filter.mp hx
    have hx3 := mem_uniqueAux _ _ _ hx2.1
    simp only [List.mem_map] at hx3
    obtain ⟨b, ⟨a, _, hab⟩, hbx⟩ := hx3
    exact ⟨a, by rw [← hbx, ← hab]⟩

/-- C6 amended: get_studio_names_from_centers returns no empty entry and
no two entries that differ only by letter case or surrounding whitespace;
get_unique_towns deduplicates case-insensitively in the sense that no two
of its entries differ only by letter case, but (per the counterexample) it
keeps absent and empty values and does not trim whitespace. -/
theorem studio_names_towns_normalized (df : List Row) :
    (∀ x ∈ get_studio_names_from_centers df, x ≠ []) ∧
    (∀ x ∈ get_studio_names_from_centers df, ∀ y ∈ get_studio_names_from_centers df,
      normName x = normName y → x = y) ∧
    (∀ o ∈ get_unique_towns df, ∀ o2 ∈ get_unique_towns df,
      o.map pyLower = o2.map pyLower → o = o2) := by
  have hshape : ∀ x ∈ get_studio_names_from_centers df, normName x = x := by
    intro x hx
    obtain ⟨a, ha⟩ := studio_names_shape df x hx
    rw [ha]
    exact normName_fixes_normalized a
  refine ⟨?_, ?_, ?_⟩
  · intro x hx
    unfold get_studio_names_from_centers at hx
    by_cases hdf : df = []
    · rw [if_pos hdf] at hx
      exact absurd hx (List.not_mem_nil x)
    · rw [if_neg hdf] at hx
      have := (List.mem_filter.mp hx).2
      simpa using this
  · intro x hx y hy hnorm
    rw [← hshape x hx, ← hshape y hy, hnorm]
  · have htshape : ∀ o ∈ get_unique_towns df, o.map pyLower = o := by
      intro o ho
      have ho2 := mem_uniqueAux _ _ _ ho
      simp only [List.mem_map] at ho2
      obtain ⟨r, _, hro⟩ := ho2
      rw [← hro]
      cases r.city with
      | none => rfl
      | some c => simp [Option.map_some, pyLower_idem]
    intro o ho o2 ho2 hlow
    rw [← htshape o ho, ← htshape o2 ho2, hlow]

theorem studio_names_towns_normalized_witness :
    (("gym").toList : PyStr) ≠ [] ∧ (("gym").toList : PyStr) = ("gym").toList ∧
    (some (("berlin").toList) : Option PyStr) = some (("berlin").toList) :=
  ⟨(studio_names_towns_normalized [rowNoCity]).1 (("gym").toList) (by decide),
   (studio_names_towns_normalized [rowNoCity]).2.1 (("gym").toList) (by decide)
     (("gym").toList) (by decide) rfl,
   (studio_names_towns_normalized [rowPlainCity]).2.2 (some (("berlin").toList))
     (by decide) (some (("berlin").toList)) (by decide) rfl⟩

/-- A geocoder that resolves nothing (the collaborator returning "not
found" for every input). -/
def noGeocode : PyStr → Option (ℚ × ℚ) := fun _ => Option.none

/-- The session state before the failing query of the C3 scenario. -/
def stateBefore : SessionState :=
  { last_search_params := Option.none, search_history := [],
    location := Option.none, map_center := (0, 0), zoom_start := 5,
    town_boundary := Option.none, fitness_centers := [], studios_name := [],
    studio_filters := [], search_results_info := Option.none,
    selected_fitness := Option.none, charging_stations := [],
    selected_studios := [] }

/-- The handler run of the C3 scenario: a search for "Zzzzznotacity" whose
geocoding fails. -/
def failedSearch : SessionState × Option PyStr :=
  handle_address_search noGeocode (fun _ => Option.none) (fun _ _ => Option.none)
    [] (("Zzzzznotacity").toList) (("DE").toList) stateBefore

/-- C3 counterexample: the failing search does report the resolution
failure, but the session state is not unchanged: the query has been
appended to the search history and set as the current location before the
geocoding failure is detected. -/
theorem failed_geocode_changes_state :
    failedSearch.2 = some addressNotFoundMsg ∧
    failedSearch.1.search_history = [("Zzzzznotacity").toList] ∧
    stateBefore.search_history = [] ∧
    failedSearch.1 ≠ stateBefore := by
  decide

/-- C3 amended: when geocoding fails on a fresh query, the handler reports
the resolution failure and aborts before any result is produced: the
result set, studio names, studio filters, search statistics, selection,
charging stations, map center, zoom, town boundary and last-search marker
all keep their pre-query values, and no default location is substituted;
however the query is first appended to the search history (kept at most 10
entries long) and recorded as the current location text. -/
theorem failed_geocode_reports_and_preserves_results
    (geocode_location : PyStr → Option (ℚ × ℚ))
    (extract_city : PyStr → Option PyStr)
    (boundary : PyStr → PyStr → Option GeoFeature)
    (catalog : List Row) (address country_code : PyStr) (st : SessionState)
    (hgeo : geocode_location address = Option.none)
    (hnew : st.last_search_params ≠ some (address, country_code)) :
    (handle_address_search geocode_location extract_city boundary catalog
        address country_code st).2 = some addressNotFoundMsg ∧
    (handle_address_search geocode_location extract_city boundary catalog
        address country_code st).1 =
      { st with
        search_history :=
          if address ∈ st.search_history then st.search_history
          else
            if (st.search_history ++ [address]).length > 10 then
              (st.search_history ++ [address]).drop 1
            else st.search_history ++ [address]
        location := some address } := by
  unfold handle_address_search
  rw [if_neg hnew, hgeo]
  exact ⟨rfl, rfl⟩

theorem failed_geocode_reports_and_preserves_results_witness :
    (handle_address_search noGeocode (fun _ => Option.none)
        (fun _ _ => Option.none) [rowPlainCity] (("Qqqnowhere").toList)
        (("DE").toList) stateBefore).2 = some addressNotFoundMsg :=
  (failed_geocode_reports_and_preserves_results noGeocode (fun _ => Option.none)
    (fun _ _ => Option.none) [rowPlainCity] (("Qqqnowhere").toList)
    (("DE").toList) stateBefore rfl (by decide)).1

/-- Every pair kept by the distance filter of the search pipeline has a
distance within the radius. -/
theorem filterMap_distance_le (country_centers : List Row) (lat lon m : ℚ) :
    ∀ p ∈ country_centers.filterMap (fun center =>
      match center.latitude, center.longitude with
      | some la, some lo =>
        if la ≠ 0 ∧ lo ≠ 0 then
          match compute_distance (some lat, some lon) (some la, some lo) with
          | some distance =>
            if distance ≤ m then some (center, distance) else Option.none
          | Option.none => Option.none
        else Option.none
      | _, _ => Option.none), p.2 ≤ m := by
  intro p hp
  rw [List.mem_filterMap] at hp
  obtain ⟨c, _, hfc⟩ := hp
  cases hla : c.latitude with
  | none => simp [hla] at hfc
  | some la =>
    cases hlo : c.longitude with
    | none => simp [hla, hlo] at hfc
    | some lo =>
      simp only [hla, hlo] at hfc
      by_cases hz : la ≠ 0 ∧ lo ≠ 0
      · rw [if_pos hz] at hfc
        simp only [compute_distance] at hfc
        by_cases hd : geodesic_km (lat, lon) (la, lo) ≤ m
        · rw [if_pos hd] at hfc
          cases hfc
          exact hd
        · rw [if_neg hd] at hfc
          exact absurd hfc (by simp)
      · rw [if_neg hz] at hfc
        exact absurd hfc (by simp)

/-- The final step of the search pipeline keeps every filtered pair within
the radius and produces a distance-sorted list. -/
theorem sort_step_within_radius_sorted (valid : List (Row × ℚ)) (m : ℚ)
    (hv : ∀ p ∈ valid, p.2 ≤ m) :
    (∀ p ∈ (if valid = [] then [] else List.insertionSort distLE valid), p.2 ≤ m) ∧
    List.Sorted distLE (if valid = [] then [] else List.insertionSort distLE valid) := by
  by_cases h : valid = []
  · rw [if_pos h]
    exact ⟨by simp, List.sorted_nil⟩
  · rw [if_neg h]
    refine ⟨?_, List.sorted_insertionSort distLE valid⟩
    intro p hp
    exact hv p ((List.mem_insertionSort distLE).mp hp)

/-- C1: every row of the search result lies within the radius (closed
inequality, distance less than or equal to the radius) and the result is
ordered non-decreasingly in the distance column. -/
theorem search_results_within_radius_sorted (all_centers : List Row)
    (coords : Option (List ℚ)) (country_code : PyStr) (max_distance_km : ℚ) :
    (∀ p ∈ get_fitness_centers_by_coordinates all_centers coords country_code
        max_distance_km, p.2 ≤ max_distance_km) ∧
    List.Sorted distLE (get_fitness_centers_by_coordinates all_centers coords
      country_code max_distance_km) := by
  rcases coords with _ | cs
  · exact ⟨by simp [get_fitness_centers_by_coordinates], List.sorted_nil⟩
  · match cs with
    | [] => exact ⟨by simp [get_fitness_centers_by_coordinates], List.sorted_nil⟩
    | [a] => exact ⟨by simp [get_fitness_centers_by_coordinates], List.sorted_nil⟩
    | a :: b :: c :: rest =>
      exact ⟨by simp [get_fitness_centers_by_coordinates], List.sorted_nil⟩
    | [lat, lon] =>
      simp only [get_fitness_centers_by_coordinates]
      by_cases h1 : all_centers = []
      · rw [if_pos h1]
        exact ⟨by simp, List.sorted_nil⟩
      · rw [if_neg h1]
        by_cases h2 : all_centers.filter (fun c => c.country = some country_code) = []
        · rw [if_pos h2]
          exact ⟨by simp, List.sorted_nil⟩
        · rw [if_neg h2]
          exact sort_step_within_radius_sorted _ max_distance_km
            (filterMap_distance_le _ lat lon max_distance_km)

theorem search_results_within_radius_sorted_witness :
    ((rowPlainCity, (0 : ℚ)) : Row × ℚ).2 ≤ 50 ∧
    List.Sorted distLE (get_fitness_centers_by_coordinates [rowPlainCity]
      (some [1, 2]) (("DE").toList) 50) :=
  ⟨(search_results_within_radius_sorted [rowPlainCity] (some [1, 2])
      (("DE").toList) 50).1 (rowPlainCity, 0) (by with_unfolding_all decide),
   (search_results_within_radius_sorted [rowPlainCity] (some [1, 2])
      (("DE").toList) 50).2⟩

end GreenFitness
